import Mathlib

/-!
Verification of the HE music container parser (HE_music_extractor.py).

The Python code reads a seekable binary file.  We embed the byte source as a
list of byte values together with an explicit cursor (`FS`), mirroring Python
file semantics: `read n` returns at most `n` bytes (fewer at end of file) and
advances the cursor by the number of bytes actually returned; `seek` moves the
cursor absolutely or relatively and may point past the end of the data.

`struct.unpack` on a short read raises `struct.error`; we model every such
failure, as well as the container-level `RuntimeError` and the `SGHD`
assertion, as values of `ParseError`.  The `logger.warning` calls that record
why a track was skipped are modelled by an `Option SkipWarning` attached to
each per-track result.
-/

/-- Fatal outcomes of a parse, mirroring the exceptions the Python code can
raise: `RuntimeError` for a bad outer magic, the `SGHD` assertion failure,
`struct.error` on a short `unpack` read, the `NameError` caused by the
undefined variable `f` in the `SBNG` branch of `get_music_data`, and an
`OSError` for a seek to a negative position. -/
inductive ParseError where
  | notAContainer
  | malformedHeader
  | truncatedInput
  | nameErrorUndefinedF
  | negativeSeek
  deriving DecidableEq, Repr

/-- The per-track warnings logged by `get_music_data` when a track is
skipped: an unsupported outer format tag (the tag bytes are logged), or a
failed payload-header (`SDAT`) check. -/
inductive SkipWarning where
  | unsupportedFormat (tag : List Nat)
  | missingPayloadChunk
  deriving DecidableEq, Repr

/-- The `SongInfo` dataclass: id, offset and size from the descriptor table,
with `rate`/`payload` absent (`None`) until extraction succeeds, and
`sbng_code_offset` defaulting to the sentinel `-1`. -/
structure SongInfo where
  id : Nat
  offset : Nat
  size : Nat
  rate : Option Nat := none
  payload : Option (List Nat) := none
  sbng_code_offset : Int := -1
  deriving DecidableEq, Repr

/-- A seekable byte source: the underlying bytes and the current cursor. -/
structure FS where
  data : List Nat
  pos : Nat
  deriving DecidableEq, Repr

/-- Python `file.read(n)` for `n ≥ 0`: returns up to `n` bytes starting at
the cursor and advances the cursor by the number of bytes returned. -/
def FS.read (s : FS) (n : Nat) : List Nat × FS :=
  let bs := (s.data.drop s.pos).take n
  (bs, ⟨s.data, s.pos + bs.length⟩)

/-- Python `file.read(n)` for an arbitrary signed `n`: a negative argument
reads until end of file. -/
def FS.readInt (s : FS) (n : Int) : List Nat × FS :=
  if n < 0 then
    let bs := s.data.drop s.pos
    (bs, ⟨s.data, s.pos + bs.length⟩)
  else s.read n.toNat

/-- Python `file.seek(p, SEEK_SET)`. -/
def FS.seekSet (s : FS) (p : Nat) : FS := ⟨s.data, p⟩

/-- Python `file.seek(d, SEEK_CUR)` for a nonnegative displacement. -/
def FS.seekCur (s : FS) (d : Nat) : FS := ⟨s.data, s.pos + d⟩

/-- Python `file.seek(d, SEEK_CUR)` for a signed displacement: seeking to a
negative resulting position raises `OSError`. -/
def FS.seekCurInt (s : FS) (d : Int) : Except ParseError FS :=
  if (s.pos : Int) + d < 0 then .error .negativeSeek
  else .ok ⟨s.data, ((s.pos : Int) + d).toNat⟩

/-- Big-endian interpretation of a byte list (`struct.unpack` format `>I`). -/
def be32 (bs : List Nat) : Nat := bs.foldl (fun a b => 256 * a + b) 0

/-- Little-endian interpretation of a byte list (`struct.unpack` format
`<I`). -/
def le32 (bs : List Nat) : Nat := bs.foldr (fun b a => 256 * a + b) 0

/-- Python `unpack` of one big-endian 32-bit integer from a 4-byte read;
`struct.error` (modelled `truncatedInput`) when fewer than 4 bytes remain. -/
def unpackBE (s : FS) : Except ParseError (Nat × FS) :=
  let r := s.read 4
  if r.1.length = 4 then .ok (be32 r.1, r.2) else .error .truncatedInput

/-- Python `unpack` of one little-endian 32-bit integer from a 4-byte read;
`struct.error` (modelled `truncatedInput`) when fewer than 4 bytes remain. -/
def unpackLE (s : FS) : Except ParseError (Nat × FS) :=
  let r := s.read 4
  if r.1.length = 4 then .ok (le32 r.1, r.2) else .error .truncatedInput

/-- ASCII bytes of the literal tag SONG. -/
def songMagic : List Nat := [83, 79, 78, 71]

/-- ASCII bytes of the literal tag SGHD. -/
def sghdMagic : List Nat := [83, 71, 72, 68]

/-- ASCII bytes of the literal tag DIGI. -/
def digiMagic : List Nat := [68, 73, 71, 73]

/-- ASCII bytes of the literal tag SBNG. -/
def sbngMagic : List Nat := [83, 66, 78, 71]

/-- ASCII bytes of the literal tag SDAT. -/
def sdatMagic : List Nat := [83, 68, 65, 84]

/-- The class attribute `HEMusicExtractor.he_version = 80`. -/
def he_version : Nat := 80

/-- The descriptor-record loop of `read_music_headers`: for each track,
read 12 bytes as three little-endian 32-bit integers (`unpack` of format
`<3I`, so a short read is `struct.error`), then skip 9 trailing bytes when
`he_version ≥ 80` and 13 otherwise. -/
def readSongLoop (s : FS) (n : Nat) (hv : Nat) :
    Except ParseError (List SongInfo × FS) :=
  match n with
  | 0 => .ok ([], s)
  | Nat.succ m =>
    let r := s.read 12
    if r.1.length = 12 then
      let id_ := le32 (r.1.take 4)
      let off := le32 ((r.1.drop 4).take 4)
      let sz := le32 ((r.1.drop 8).take 4)
      let s1 := r.2.seekCur (if hv ≥ 80 then 9 else 13)
      match readSongLoop s1 m hv with
      | .error e => .error e
      | .ok (rest, s2) => .ok (⟨id_, off, sz, none, none, -1⟩ :: rest, s2)
    else .error .truncatedInput

/-- `HEMusicExtractor.read_music_headers`: validate the `SONG` and `SGHD`
magics, read the big-endian header length (downgrading `he_version` to 70
when it is not 40), read the little-endian track count, seek to the
schema-dependent table start (56 for version ≥ 80, else 20) and read the
descriptor records. -/
def read_music_headers (s0 : FS) : Except ParseError (List SongInfo × FS) :=
  let s := s0.seekSet 0
  let r := s.read 4
  if r.1 = songMagic then
    let s := r.2.seekCur 4
    let r2 := s.read 4
    if r2.1 = sghdMagic then
      match unpackBE r2.2 with
      | .error e => .error e
      | .ok (header_len, s) =>
        let hv := if header_len ≠ 40 then 70 else he_version
        match unpackLE s with
        | .error e => .error e
        | .ok (total_tracks, s) =>
          let music_start := if hv ≥ 80 then 56 else 20
          readSongLoop (s.seekSet music_start) total_tracks hv
    else .error .malformedHeader
  else .error .notAContainer

/-- The tail of the per-track chunk walk shared by the `SDAT` check and the
payload read: if the (possibly re-read) chunk tag is not `SDAT`, skip the
track with a `missingPayloadChunk` warning; otherwise read the big-endian
declared chunk size, subtract 8, read that many bytes as the payload and
populate `rate` and `payload` on the song. -/
def readSDAT (r : List Nat × FS) (song : SongInfo) (rate : Nat) :
    Except ParseError ((SongInfo × Option SkipWarning) × FS) :=
  if r.1 = sdatMagic then
    match unpackBE r.2 with
    | .error e => .error e
    | .ok (szRaw, s) =>
      let rp := s.readInt ((szRaw : Int) - 8)
      .ok (({ song with rate := some rate, payload := some rp.1 }, none), rp.2)
  else .ok ((song, some SkipWarning.missingPayloadChunk), r.2)

/-- The body of the per-song loop of `HEMusicExtractor.get_music_data`,
faithful to the source: seek to the descriptor's offset, check the `DIGI`
tag (warning + skip otherwise), read the little-endian rate at offset + 22,
read the chunk tag at offset + 32; in the `SBNG` branch the source reads the
big-endian code length from `file` and then calls `f.seek`, where `f` is an
undefined name in the function's scope, raising `NameError`. -/
def extract_song (s0 : FS) (song : SongInfo) :
    Except ParseError ((SongInfo × Option SkipWarning) × FS) :=
  let s := s0.seekSet song.offset
  let r := s.read 4
  if r.1 = digiMagic then
    match unpackLE (r.2.seekSet (song.offset + 22)) with
    | .error e => .error e
    | .ok (rate, s) =>
      let r2 := (s.seekSet (song.offset + 32)).read 4
      if r2.1 = sbngMagic then
        match unpackBE r2.2 with
        | .error e => .error e
        | .ok _ => .error .nameErrorUndefinedF
      else
        readSDAT r2 song rate
  else .ok ((song, some (SkipWarning.unsupportedFormat r.1)), r.2)

/-- Modelled from the spec: step 4 of the track-payload-extractor algorithm
with the `SBNG` code block skipped on the same byte source that the rest of
the function uses (the source instead names the undefined variable `f` for
the skip-seek and the tag re-read).  Identical to `extract_song` outside the
`SBNG` branch; inside it, records `sbng_code_offset = 40`, reads the
big-endian length, skips `length - 8` bytes with a relative seek, re-reads
the chunk tag and continues with the `SDAT` check. -/
def extract_song_spec (s0 : FS) (song : SongInfo) :
    Except ParseError ((SongInfo × Option SkipWarning) × FS) :=
  let s := s0.seekSet song.offset
  let r := s.read 4
  if r.1 = digiMagic then
    match unpackLE (r.2.seekSet (song.offset + 22)) with
    | .error e => .error e
    | .ok (rate, s) =>
      let r2 := (s.seekSet (song.offset + 32)).read 4
      if r2.1 = sbngMagic then
        let song1 := { song with sbng_code_offset := 40 }
        match unpackBE r2.2 with
        | .error e => .error e
        | .ok (codeLenRaw, s) =>
          match s.seekCurInt ((codeLenRaw : Int) - 8) with
          | .error e => .error e
          | .ok s =>
            let r3 := s.read 4
            readSDAT r3 song1 rate
      else
        readSDAT r2 song rate
  else .ok ((song, some (SkipWarning.unsupportedFormat r.1)), r.2)

/-- The per-song loop of `get_music_data` over the whole descriptor list,
threading the shared file cursor from song to song as the source does. -/
def extractLoop (s : FS) : List SongInfo →
    Except ParseError (List (SongInfo × Option SkipWarning) × FS)
  | [] => .ok ([], s)
  | song :: rest =>
    match extract_song s song with
    | .error e => .error e
    | .ok (r, s1) =>
      match extractLoop s1 rest with
      | .error e => .error e
      | .ok (rs, s2) => .ok (r :: rs, s2)

/-- `HEMusicExtractor.get_music_data`: read the headers, then run the
per-song extraction loop over the descriptor list and return the updated
songs (the attached warnings model the log and are dropped here, as the
Python function returns only the `SongInfo` list). -/
def get_music_data (s0 : FS) : Except ParseError (List SongInfo) :=
  match read_music_headers s0 with
  | .error e => .error e
  | .ok (songs, s) =>
    match extractLoop s songs with
    | .error e => .error e
    | .ok (rs, _) => .ok (rs.map Prod.fst)

/-- The descriptor that a table walk starting at `base` with record stride
`stride` produces for index `j`: three consecutive little-endian 32-bit
fields at the start of record `j`. -/
def descAt (data : List Nat) (base stride j : Nat) : SongInfo :=
  ⟨le32 ((data.drop (base + stride * j)).take 4),
   le32 ((data.drop (base + stride * j + 4)).take 4),
   le32 ((data.drop (base + stride * j + 8)).take 4),
   none, none, -1⟩

/-- A concrete well-formed V2 container fixture: header length 40, one
descriptor (id 7, offset 77, size 11) at table start 56, and one `DIGI`
track at byte 77 with rate 11025 and a 3-byte `SDAT` payload. -/
def dataV2 : List Nat :=
  [83, 79, 78, 71, 0, 0, 0, 0, 83, 71, 72, 68, 0, 0, 0, 40, 1, 0, 0, 0]
    ++ List.replicate 36 0
    ++ [7, 0, 0, 0, 77, 0, 0, 0, 11, 0, 0, 0]
    ++ List.replicate 9 0
    ++ [68, 73, 71, 73]
    ++ List.replicate 18 0
    ++ [17, 43, 0, 0]
    ++ List.replicate 6 0
    ++ [83, 68, 65, 84, 0, 0, 0, 11, 1, 2, 3]

/-- A concrete well-formed V1 container fixture: header length 20 (so not the
V2 constant 40), one descriptor (id 3, offset 49, size 5) at table start 20
with 13 trailing bytes. -/
def dataV1 : List Nat :=
  [83, 79, 78, 71, 0, 0, 0, 0, 83, 71, 72, 68, 0, 0, 0, 20, 1, 0, 0, 0]
    ++ [3, 0, 0, 0, 49, 0, 0, 0, 5, 0, 0, 0]
    ++ List.replicate 13 0

/-- A concrete chunk sequence (placed at offset 0) whose `SDAT` chunk
declares size 108 (payload length 100) while only 3 payload bytes remain in
the source. -/
def dataTrunc : List Nat :=
  [68, 73, 71, 73]
    ++ List.replicate 18 0
    ++ [17, 43, 0, 0]
    ++ List.replicate 6 0
    ++ [83, 68, 65, 84, 0, 0, 0, 108, 5, 6, 7]

/-- A concrete chunk sequence (placed at offset 0) with an `SBNG` block of
declared length 12 (4 code bytes) between the header blocks and the `SDAT`
chunk carrying payload `[1, 2, 3]` at rate 11025. -/
def dataSBNG : List Nat :=
  [68, 73, 71, 73]
    ++ List.replicate 18 0
    ++ [17, 43, 0, 0]
    ++ List.replicate 6 0
    ++ [83, 66, 78, 71, 0, 0, 0, 12, 9, 9, 9, 9]
    ++ [83, 68, 65, 84, 0, 0, 0, 11, 1, 2, 3]

/-- The same chunk sequence as `dataSBNG` with the `SBNG` block removed. -/
def dataPlain : List Nat :=
  [68, 73, 71, 73]
    ++ List.replicate 18 0
    ++ [17, 43, 0, 0]
    ++ List.replicate 6 0
    ++ [83, 68, 65, 84, 0, 0, 0, 11, 1, 2, 3]

/-- A concrete chunk sequence (placed at offset 0) with a valid `DIGI` tag
and rate but a chunk tag at offset 32 that is neither `SBNG` nor `SDAT`. -/
def dataMiss : List Nat :=
  [68, 73, 71, 73]
    ++ List.replicate 18 0
    ++ [17, 43, 0, 0]
    ++ List.replicate 6 0
    ++ [88, 88, 88, 88]

/-- Reading `n` bytes at offset `k` returns exactly `n` bytes when the data
is long enough. -/
theorem take_drop_length (data : List Nat) (k n : Nat) (h : k + n ≤ data.length) :
    ((data.drop k).take n).length = n := by
  simp only [List.length_take, List.length_drop]
  omega

/-- Characterization of the descriptor-record loop: starting at `pos` with
enough data for `n` records of stride `12 + skip`, it returns the `n`
records in table order, each decoded by `descAt`, leaving the cursor at the
end of the table. -/
theorem readSongLoop_spec (data : List Nat) (hv skip : Nat)
    (hs : skip = if hv ≥ 80 then 9 else 13) :
    ∀ (n pos : Nat), pos + (12 + skip) * n ≤ data.length →
      readSongLoop ⟨data, pos⟩ n hv =
        .ok ((List.range n).map (descAt data pos (12 + skip)),
             ⟨data, pos + (12 + skip) * n⟩) := by
  intro n
  induction n with
  | zero => intro pos h; simp [readSongLoop]
  | succ m ih =>
    intro pos h
    rw [Nat.mul_succ] at h
    have h12 : ((data.drop pos).take 12).length = 12 :=
      take_drop_length data pos 12 (by omega)
    have hfun : descAt data pos (12 + skip) ∘ Nat.succ =
        descAt data (pos + 12 + skip) (12 + skip) := by
      funext j
      simp only [Function.comp_apply, descAt, Nat.succ_eq_add_one]
      have hi : pos + (12 + skip) * (j + 1) = pos + 12 + skip + (12 + skip) * j := by
        ring
      rw [hi]
    have hdesc0 : descAt data pos (12 + skip) 0 =
        SongInfo.mk (le32 (((data.drop pos).take 12).take 4))
          (le32 ((((data.drop pos).take 12).drop 4).take 4))
          (le32 ((((data.drop pos).take 12).drop 8).take 4)) none none (-1) := by
      simp [descAt, List.take_take, List.drop_take, List.drop_drop]
    have hlist : (List.range (m + 1)).map (descAt data pos (12 + skip)) =
        descAt data pos (12 + skip) 0 ::
          (List.range m).map (descAt data (pos + 12 + skip) (12 + skip)) := by
      rw [List.range_succ_eq_map, List.map_cons, List.map_map, hfun]
    unfold readSongLoop
    simp only [FS.read, FS.seekCur]
    rw [if_pos h12, h12, ← hs]
    rw [ih (pos + 12 + skip) (by omega)]
    rw [hlist, hdesc0, Nat.mul_succ]
    simp only [Except.ok.injEq, Prod.mk.injEq, FS.mk.injEq, true_and]
    omega

/-- Full characterization of `read_music_headers` on a well-formed container:
the magics match, the declared header length `hl` selects the table base
(56 when `hl = 40`, else 20) and the per-record trailing skip (9 when
`hl = 40`, else 13), and the declared track count `n` records are decoded
in table order by `descAt`. -/
theorem read_music_headers_layout (data : List Nat) (p hl n base skip : Nat)
    (hhl : hl = be32 ((data.drop 12).take 4))
    (hn : n = le32 ((data.drop 16).take 4))
    (hbase : base = if hl = 40 then 56 else 20)
    (hskip : skip = if hl = 40 then 9 else 13)
    (h1 : data.take 4 = songMagic)
    (h2 : (data.drop 8).take 4 = sghdMagic)
    (h3 : 20 ≤ data.length)
    (h4 : base + (12 + skip) * n ≤ data.length) :
    read_music_headers ⟨data, p⟩ =
      .ok ((List.range n).map (descAt data base (12 + skip)),
           ⟨data, base + (12 + skip) * n⟩) := by
  have m00 : min 4 data.length = 4 := by omega
  have m08 : min 4 (data.length - 8) = 4 := by omega
  have m1 : min 4 (data.length - 12) = 4 := by omega
  have m2 : min 4 (data.length - 16) = 4 := by omega
  by_cases hc : hl = 40
  · rw [if_pos hc] at hbase hskip
    subst hbase; subst hskip
    unfold read_music_headers
    norm_num [FS.seekSet, FS.seekCur, FS.read, unpackBE, unpackLE, h1, h2,
      m00, m08, m1, m2, ← hhl, ← hn, hc, he_version, songMagic, sghdMagic]
    exact readSongLoop_spec data 80 9 (by norm_num) n 56 (by omega)
  · rw [if_neg hc] at hbase hskip
    subst hbase; subst hskip
    unfold read_music_headers
    norm_num [FS.seekSet, FS.seekCur, FS.read, unpackBE, unpackLE, h1, h2,
      m00, m08, m1, m2, ← hhl, ← hn, hc, he_version, songMagic, sghdMagic]
    exact readSongLoop_spec data 70 13 (by norm_num) n 20 (by omega)

/-- Claim C3: if the 4-byte big-endian header-block length at offset 12
equals 40, the header reader uses the V2 layout (descriptor table at byte
56, 9 trailing bytes per record, stride 21); for any other declared length
it uses the V1 layout (table at byte 20, 13 trailing bytes per record,
stride 25), with no further validation of the declared length. -/
theorem c3_header_schema_selection (data : List Nat) (p hl n base stride : Nat)
    (hhl : hl = be32 ((data.drop 12).take 4))
    (hn : n = le32 ((data.drop 16).take 4))
    (hbase : base = if hl = 40 then 56 else 20)
    (hstride : stride = if hl = 40 then 21 else 25)
    (h1 : data.take 4 = songMagic)
    (h2 : (data.drop 8).take 4 = sghdMagic)
    (h3 : 20 ≤ data.length)
    (h4 : base + stride * n ≤ data.length) :
    read_music_headers ⟨data, p⟩ =
      .ok ((List.range n).map (descAt data base stride),
           ⟨data, base + stride * n⟩) := by
  by_cases hc : hl = 40
  · rw [if_pos hc] at hbase hstride
    subst hbase; subst hstride
    exact read_music_headers_layout data p hl n 56 9 hhl hn
      (by rw [if_pos hc]) (by rw [if_pos hc]) h1 h2 h3 (by omega)
  · rw [if_neg hc] at hbase hstride
    subst hbase; subst hstride
    exact read_music_headers_layout data p hl n 20 13 hhl hn
      (by rw [if_neg hc]) (by rw [if_neg hc]) h1 h2 h3 (by omega)

/-- Witness for C3: both fixtures decode as the schema rule dictates — the
length-40 fixture from table start 56 with stride 21, the length-20 fixture
from table start 20 with stride 25. -/
theorem c3_header_schema_selection_witness :
    read_music_headers ⟨dataV2, 0⟩ =
      .ok ([⟨7, 77, 11, none, none, -1⟩], ⟨dataV2, 77⟩) ∧
    read_music_headers ⟨dataV1, 0⟩ =
      .ok ([⟨3, 49, 5, none, none, -1⟩], ⟨dataV1, 45⟩) := by
  constructor
  · exact (c3_header_schema_selection dataV2 0 40 1 56 21 rfl rfl rfl rfl rfl rfl
      (by decide) (by decide)).trans (by rfl)
  · exact (c3_header_schema_selection dataV1 0 20 1 20 25 rfl rfl rfl rfl rfl rfl
      (by decide) (by decide)).trans (by rfl)

/-- Claim C4: for a well-formed container declaring track count `n`, the
header reader returns exactly `n` descriptors in table order, each
descriptor's id, offset and size being the three consecutive 4-byte
little-endian integers at the start of its record. -/
theorem c4_descriptor_records (data : List Nat) (p hl n base skip : Nat)
    (hhl : hl = be32 ((data.drop 12).take 4))
    (hn : n = le32 ((data.drop 16).take 4))
    (hbase : base = if hl = 40 then 56 else 20)
    (hskip : skip = if hl = 40 then 9 else 13)
    (h1 : data.take 4 = songMagic)
    (h2 : (data.drop 8).take 4 = sghdMagic)
    (h3 : 20 ≤ data.length)
    (h4 : base + (12 + skip) * n ≤ data.length) :
    ∀ songs s1, read_music_headers ⟨data, p⟩ = .ok (songs, s1) →
      songs.length = n ∧
        ∀ j (hj : j < songs.length), songs.get ⟨j, hj⟩ = descAt data base (12 + skip) j := by
  intro songs s1 hok
  rw [read_music_headers_layout data p hl n base skip hhl hn hbase hskip h1 h2 h3 h4] at hok
  injection hok with hok
  injection hok with hok1 hok2
  constructor
  · rw [← hok1]; simp
  · intro j hj
    subst hok1
    simp [List.get_eq_getElem, List.getElem_map, List.getElem_range]

/-- Witness for C4: the V2 fixture's single descriptor is decoded from the
bytes at table start 56. -/
theorem c4_descriptor_records_witness :
    ([⟨7, 77, 11, none, none, -1⟩] : List SongInfo).length = 1 ∧
    ([⟨7, 77, 11, none, none, -1⟩] : List SongInfo).get ⟨0, by norm_num⟩ =
      descAt dataV2 56 (12 + 9) 0 := by
  have h := c4_descriptor_records dataV2 0 40 1 56 9 rfl rfl rfl rfl rfl rfl
    (by decide) (by decide) [⟨7, 77, 11, none, none, -1⟩] ⟨dataV2, 77⟩ (by rfl)
  exact ⟨h.1, h.2 0 (by norm_num)⟩

/-- Claim C7: an input whose first 4 bytes are not `SONG` fails fatally with
`notAContainer` (no descriptor list is produced); an input whose bytes at
offset 8 are not `SGHD` fails fatally with `malformedHeader`. -/
theorem c7_container_level_failures (data : List Nat) (p : Nat) :
    (data.take 4 ≠ songMagic → read_music_headers ⟨data, p⟩ = .error .notAContainer) ∧
    (data.take 4 = songMagic → (data.drop 8).take 4 ≠ sghdMagic →
      read_music_headers ⟨data, p⟩ = .error .malformedHeader) := by
  constructor
  · intro h
    unfold read_music_headers
    simp only [FS.seekSet, FS.read, List.drop_zero]
    rw [if_neg h]
  · intro h1 h2
    unfold read_music_headers
    simp only [FS.seekSet, FS.seekCur, FS.read, List.drop_zero]
    rw [h1, if_pos rfl]
    rw [show (0 : Nat) + songMagic.length + 4 = 8 from rfl]
    rw [if_neg h2]

/-- Witness for C7: a 3-byte garbage input is `notAContainer`; a `SONG`
container with a wrong sub-header magic is `malformedHeader`. -/
theorem c7_container_level_failures_witness :
    read_music_headers ⟨[1, 2, 3], 0⟩ = .error .notAContainer ∧
    read_music_headers ⟨[83, 79, 78, 71, 0, 0, 0, 0, 88, 88, 88, 88], 0⟩ =
      .error .malformedHeader :=
  ⟨(c7_container_level_failures [1, 2, 3] 0).1 (by decide),
   (c7_container_level_failures [83, 79, 78, 71, 0, 0, 0, 0, 88, 88, 88, 88] 0).2
     (by decide) (by decide)⟩

/-- Characterization of a successful `DIGI`/`SDAT` chunk walk: with the tags
in place and the rate and size fields readable, `extract_song` returns the
song populated with the little-endian rate at offset + 22 and the payload
read after the big-endian size field at offset + 36. -/
theorem extract_song_digi_sdat (data : List Nat) (p : Nat) (song : SongInfo)
    (hD : (data.drop song.offset).take 4 = digiMagic)
    (hR : song.offset + 26 ≤ data.length)
    (hS : (data.drop (song.offset + 32)).take 4 = sdatMagic)
    (hZ : song.offset + 40 ≤ data.length) :
    extract_song ⟨data, p⟩ song =
      .ok (({ song with
              rate := some (le32 ((data.drop (song.offset + 22)).take 4)),
              payload := some (FS.readInt ⟨data, song.offset + 40⟩
                ((be32 ((data.drop (song.offset + 36)).take 4) : Int) - 8)).1 }, none),
           (FS.readInt ⟨data, song.offset + 40⟩
             ((be32 ((data.drop (song.offset + 36)).take 4) : Int) - 8)).2) := by
  have l22 : ((data.drop (song.offset + 22)).take 4).length = 4 :=
    take_drop_length data _ 4 (by omega)
  have l36 : ((data.drop (song.offset + 36)).take 4).length = 4 :=
    take_drop_length data _ 4 (by omega)
  unfold extract_song
  simp only [FS.seekSet, FS.read]
  rw [hD, if_pos rfl]
  simp only [unpackLE, FS.read, l22, reduceIte]
  rw [hS]
  rw [if_neg (by decide : ¬(sdatMagic = sbngMagic))]
  unfold readSDAT
  rw [if_pos rfl]
  rw [show sdatMagic.length = 4 from rfl]
  rw [show song.offset + 32 + 4 = song.offset + 36 from by omega]
  simp only [unpackBE, FS.read, l36, reduceIte]

/-- The extractor's behaviour does not depend on where the shared cursor was
left by previous reads: its first action is an absolute seek. -/
theorem extract_song_pos_irrel (d : List Nat) (p : Nat) (song : SongInfo) :
    extract_song ⟨d, p⟩ song = extract_song ⟨d, 0⟩ song := rfl

/-- A Python-style read never changes the underlying data. -/
theorem readInt_data (d : List Nat) (q : Nat) (z : Int) :
    (FS.readInt ⟨d, q⟩ z).2.data = d := by
  unfold FS.readInt FS.read
  split <;> rfl

/-- Inversion for a successful little-endian `unpack`. -/
theorem unpackLE_ok_inv (d : List Nat) (q v : Nat) (s : FS) :
    unpackLE ⟨d, q⟩ = .ok (v, s) →
      s = ⟨d, q + ((d.drop q).take 4).length⟩ ∧ v = le32 ((d.drop q).take 4) := by
  intro h
  simp only [unpackLE, FS.read] at h
  split at h
  · injection h with h2
    injection h2 with hv hs
    exact ⟨hs.symm, hv.symm⟩
  · cases h

/-- Inversion for a successful big-endian `unpack`. -/
theorem unpackBE_ok_inv (d : List Nat) (q v : Nat) (s : FS) :
    unpackBE ⟨d, q⟩ = .ok (v, s) →
      s = ⟨d, q + ((d.drop q).take 4).length⟩ ∧ v = be32 ((d.drop q).take 4) := by
  intro h
  simp only [unpackBE, FS.read] at h
  split at h
  · injection h with h2
    injection h2 with hv hs
    exact ⟨hs.symm, hv.symm⟩
  · cases h

/-- Inversion for any successful per-song extraction: the underlying data is
unchanged and the returned song keeps the descriptor's id, offset, size and
`sbng_code_offset` (only `rate` and `payload` are ever populated). -/
theorem extract_song_ok_inv (d : List Nat) (p : Nat) (song r : SongInfo)
    (w : Option SkipWarning) (s1 : FS) :
    extract_song ⟨d, p⟩ song = .ok ((r, w), s1) →
      s1.data = d ∧ r.id = song.id ∧ r.offset = song.offset ∧ r.size = song.size ∧
        r.sbng_code_offset = song.sbng_code_offset := by
  intro h
  unfold extract_song at h
  simp only [FS.seekSet, FS.read] at h
  split at h
  · cases hu : unpackLE ⟨d, song.offset + 22⟩ with
    | error e => rw [hu] at h; cases h
    | ok rs =>
      rw [hu] at h
      obtain ⟨rate, s⟩ := rs
      have hsd : s.data = d := by
        rw [(unpackLE_ok_inv d _ _ _ hu).1]
      simp only at h
      split at h
      · cases hb : unpackBE ⟨s.data, song.offset + 32 + ((s.data.drop (song.offset + 32)).take 4).length⟩ with
        | error e => rw [hb] at h; cases h
        | ok rb => rw [hb] at h; simp only at h; cases h
      · simp only [readSDAT] at h
        split at h
        · cases hb : unpackBE ⟨s.data, song.offset + 32 + ((s.data.drop (song.offset + 32)).take 4).length⟩ with
          | error e => rw [hb] at h; cases h
          | ok rb =>
            rw [hb] at h
            obtain ⟨szRaw, s2⟩ := rb
            simp only at h
            injection h with h2
            injection h2 with h3 h4
            injection h3 with h5 h6
            refine ⟨?_, ?_, ?_, ?_, ?_⟩
            · rw [← h4]
              obtain ⟨hs2, -⟩ := unpackBE_ok_inv s.data _ _ _ hb
              rw [hs2]
              exact (readInt_data s.data _ _).trans hsd
            · rw [← h5]
            · rw [← h5]
            · rw [← h5]
            · rw [← h5]
        · injection h with h2
          injection h2 with h3 h4
          injection h3 with h5 h6
          rw [← h4, ← h5]
          exact ⟨hsd, rfl, rfl, rfl, rfl⟩
  · injection h with h2
    injection h2 with h3 h4
    injection h3 with h5 h6
    rw [← h4, ← h5]
    exact ⟨rfl, rfl, rfl, rfl, rfl⟩

/-- Inversion for a successful extraction pass over a whole descriptor list:
the data is unchanged, the result list has the same length, and each entry
is exactly the independent extraction of the corresponding descriptor. -/
theorem extractLoop_ok (d : List Nat) :
    ∀ (songs : List SongInfo) (p : Nat) (rs : List (SongInfo × Option SkipWarning)) (s1 : FS),
      extractLoop ⟨d, p⟩ songs = .ok (rs, s1) →
        s1.data = d ∧ rs.length = songs.length ∧
          ∀ j (hj : j < songs.length) (hj2 : j < rs.length),
            (extract_song ⟨d, 0⟩ (songs.get ⟨j, hj⟩)).map Prod.fst = .ok (rs.get ⟨j, hj2⟩) := by
  intro songs
  induction songs with
  | nil =>
    intro p rs s1 h
    simp only [extractLoop] at h
    injection h with h2
    injection h2 with h3 h4
    refine ⟨by rw [← h4], by rw [← h3]; rfl, ?_⟩
    intro j hj hj2
    exact absurd hj (by simp)
  | cons song rest ih =>
    intro p rs s1 h
    simp only [extractLoop] at h
    cases he : extract_song ⟨d, p⟩ song with
    | error e => rw [he] at h; cases h
    | ok xs =>
      rw [he] at h
      obtain ⟨⟨xr, xw⟩, sA⟩ := xs
      have hdA := (extract_song_ok_inv d p song xr xw sA he).1
      simp only at h
      cases hl : extractLoop sA rest with
      | error e => rw [hl] at h; cases h
      | ok ys =>
        rw [hl] at h
        obtain ⟨rs2, s2⟩ := ys
        simp only at h
        injection h with h2
        injection h2 with h3 h4
        obtain ⟨dA, pA⟩ := sA
        simp only at hdA
        rw [hdA] at hl
        obtain ⟨hd2, hlen2, hget2⟩ := ih pA rs2 s2 hl
        subst h3
        subst h4
        refine ⟨hd2, by simp [hlen2], ?_⟩
        intro j hj hj2
        cases j with
        | zero =>
          show (extract_song ⟨d, 0⟩ song).map Prod.fst = .ok (xr, xw)
          rw [← extract_song_pos_irrel d p song, he]
          rfl
        | succ k =>
          exact hget2 k (Nat.lt_of_succ_lt_succ hj) (Nat.lt_of_succ_lt_succ hj2)

/-- Inversion for the descriptor-record loop: the data is unchanged and every
produced descriptor has `rate = none`, `payload = none` and the
`sbng_code_offset` sentinel `-1`. -/
theorem readSongLoop_ok_inv (d : List Nat) (hv : Nat) :
    ∀ (n q : Nat) (songs : List SongInfo) (s2 : FS),
      readSongLoop ⟨d, q⟩ n hv = .ok (songs, s2) →
        s2.data = d ∧ ∀ sng ∈ songs,
          sng.rate = none ∧ sng.payload = none ∧ sng.sbng_code_offset = -1 := by
  intro n
  induction n with
  | zero =>
    intro q songs s2 h
    simp only [readSongLoop] at h
    injection h with h2
    injection h2 with h3 h4
    refine ⟨by rw [← h4], ?_⟩
    rw [← h3]
    intro sng hmem
    cases hmem
  | succ m ih =>
    intro q songs s2 h
    simp only [readSongLoop, FS.read, FS.seekCur] at h
    split at h
    · cases hl : readSongLoop
          ⟨d, q + ((d.drop q).take 12).length + (if hv ≥ 80 then 9 else 13)⟩ m hv with
      | error e => rw [hl] at h; cases h
      | ok ys =>
        rw [hl] at h
        obtain ⟨rest, s3⟩ := ys
        simp only at h
        injection h with h2
        injection h2 with h3 h4
        obtain ⟨hd3, hall⟩ := ih _ rest s3 hl
        subst h3
        subst h4
        refine ⟨hd3, ?_⟩
        intro sng hmem
        rcases List.mem_cons.mp hmem with hfst | hrest
        · subst hfst; exact ⟨rfl, rfl, rfl⟩
        · exact hall sng hrest
    · cases h

/-- Inversion for a successful header parse: the data is unchanged and every
returned descriptor has absent `rate`/`payload` and sentinel
`sbng_code_offset`. -/
theorem read_music_headers_ok_inv (d : List Nat) (p : Nat) (songs : List SongInfo) (sH : FS) :
    read_music_headers ⟨d, p⟩ = .ok (songs, sH) →
      sH.data = d ∧ ∀ sng ∈ songs,
        sng.rate = none ∧ sng.payload = none ∧ sng.sbng_code_offset = -1 := by
  intro h
  unfold read_music_headers at h
  simp only [FS.seekSet, FS.seekCur, FS.read, List.drop_zero] at h
  split at h
  · split at h
    · cases hbe : unpackBE ⟨d, 0 + (d.take 4).length + 4 + ((d.drop (0 + (d.take 4).length + 4)).take 4).length⟩ with
      | error e => rw [hbe] at h; cases h
      | ok xs =>
        rw [hbe] at h
        obtain ⟨header_len, s⟩ := xs
        obtain ⟨hs, -⟩ := unpackBE_ok_inv d _ _ _ hbe
        subst hs
        simp only at h
        cases hle : unpackLE ⟨d, _⟩ with
        | error e => rw [hle] at h; cases h
        | ok ys =>
          rw [hle] at h
          obtain ⟨total_tracks, s2⟩ := ys
          obtain ⟨hs2, -⟩ := unpackLE_ok_inv d _ _ _ hle
          subst hs2
          simp only at h
          exact readSongLoop_ok_inv d _ total_tracks _ songs sH h
    · cases h
  · cases h

/-- Claim C5: a track whose chunk sequence at its descriptor offset is
`DIGI`, with a little-endian sample rate at relative offset 22, filler up to
relative offset 32, then `SDAT` with a big-endian declared size, yields a
success carrying exactly that sample rate and exactly declared-size-minus-8
payload bytes read immediately after the size field. -/
theorem c5_digi_roundtrip (data : List Nat) (p : Nat) (song : SongInfo) (sz : Nat)
    (hsz : sz = be32 ((data.drop (song.offset + 36)).take 4))
    (hD : (data.drop song.offset).take 4 = digiMagic)
    (hR : song.offset + 26 ≤ data.length)
    (hS : (data.drop (song.offset + 32)).take 4 = sdatMagic)
    (h8 : 8 ≤ sz)
    (hLen : song.offset + 40 + (sz - 8) ≤ data.length) :
    (extract_song ⟨data, p⟩ song).map Prod.fst =
      .ok ({ song with
             rate := some (le32 ((data.drop (song.offset + 22)).take 4)),
             payload := some ((data.drop (song.offset + 40)).take (sz - 8)) }, none) ∧
    ((data.drop (song.offset + 40)).take (sz - 8)).length = sz - 8 := by
  have hread : FS.readInt ⟨data, song.offset + 40⟩ ((sz : Int) - 8) =
      ((data.drop (song.offset + 40)).take (sz - 8),
       ⟨data, song.offset + 40 + ((data.drop (song.offset + 40)).take (sz - 8)).length⟩) := by
    unfold FS.readInt FS.read
    rw [if_neg (by omega)]
    rw [show ((sz : Int) - 8).toNat = sz - 8 from by omega]
  constructor
  · rw [extract_song_digi_sdat data p song hD hR hS (by omega)]
    rw [← hsz, hread]
    rfl
  · exact take_drop_length data _ _ (by omega)

/-- Witness for C5: the V2 fixture's track at offset 77 extracts rate 11025
and the 3-byte payload. -/
theorem c5_digi_roundtrip_witness :
    (extract_song ⟨dataV2, 0⟩ ⟨7, 77, 11, none, none, -1⟩).map Prod.fst =
      .ok (⟨7, 77, 11, some 11025, some [1, 2, 3], -1⟩, none) ∧
    ([1, 2, 3] : List Nat).length = 3 := by
  have h := c5_digi_roundtrip dataV2 0 ⟨7, 77, 11, none, none, -1⟩ 11
    (by rfl) (by rfl) (by decide) (by rfl) (by decide) (by decide)
  exact ⟨h.1.trans (by rfl), h.2⟩

/-- Counterexample to C2 as stated: on a track whose `SDAT` chunk declares
size 108 with only 3 payload bytes remaining, the extractor returns a
success whose payload is the 3 remaining bytes — strictly shorter than the
declared size minus 8 — and does not produce a `truncatedInput` error. -/
theorem c2_counterexample :
    (extract_song ⟨dataTrunc, 0⟩ ⟨1, 0, 0, none, none, -1⟩).map Prod.fst =
      .ok (⟨1, 0, 0, some 11025, some [5, 6, 7], -1⟩, none) ∧
    ([5, 6, 7] : List Nat).length < 108 - 8 ∧
    extract_song ⟨dataTrunc, 0⟩ ⟨1, 0, 0, none, none, -1⟩ ≠ .error .truncatedInput := by
  refine ⟨by rfl, by norm_num, ?_⟩
  intro hcontra
  rw [show extract_song ⟨dataTrunc, 0⟩ ⟨1, 0, 0, none, none, -1⟩ =
      .ok ((⟨1, 0, 0, some 11025, some [5, 6, 7], -1⟩, none), ⟨dataTrunc, 43⟩) from rfl] at hcontra
  cases hcontra

/-- Claim C2 (amended): when the declared `SDAT` size exceeds the bytes
remaining, the payload read silently returns just the remaining bytes — a
successful result whose payload is shorter than declared-size-minus-8, not a
distinguishable `truncatedInput` error. -/
theorem c2_amended_truncated_payload (data : List Nat) (p : Nat) (song : SongInfo) (sz : Nat)
    (hsz : sz = be32 ((data.drop (song.offset + 36)).take 4))
    (hD : (data.drop song.offset).take 4 = digiMagic)
    (hR : song.offset + 26 ≤ data.length)
    (hS : (data.drop (song.offset + 32)).take 4 = sdatMagic)
    (hZ : song.offset + 40 ≤ data.length)
    (h8 : 8 ≤ sz)
    (hTrunc : data.length < song.offset + 40 + (sz - 8)) :
    (extract_song ⟨data, p⟩ song).map Prod.fst =
      .ok ({ song with
             rate := some (le32 ((data.drop (song.offset + 22)).take 4)),
             payload := some (data.drop (song.offset + 40)) }, none) ∧
    (data.drop (song.offset + 40)).length < sz - 8 := by
  have htake : (data.drop (song.offset + 40)).take (sz - 8) = data.drop (song.offset + 40) :=
    List.take_of_length_le (by simp only [List.length_drop]; omega)
  have hread : FS.readInt ⟨data, song.offset + 40⟩ ((sz : Int) - 8) =
      (data.drop (song.offset + 40),
       ⟨data, song.offset + 40 + (data.drop (song.offset + 40)).length⟩) := by
    unfold FS.readInt FS.read
    rw [if_neg (by omega)]
    rw [show ((sz : Int) - 8).toNat = sz - 8 from by omega]
    rw [htake]
  constructor
  · rw [extract_song_digi_sdat data p song hD hR hS hZ]
    rw [← hsz, hread]
    rfl
  · simp only [List.length_drop]
    omega

/-- Witness for the amended C2: the truncated fixture yields the 3 remaining
bytes as payload, short of the declared 100. -/
theorem c2_amended_truncated_payload_witness :
    (extract_song ⟨dataTrunc, 0⟩ ⟨1, 0, 0, none, none, -1⟩).map Prod.fst =
      .ok (⟨1, 0, 0, some 11025, some [5, 6, 7], -1⟩, none) ∧
    (3 : Nat) < 108 - 8 := by
  have h := c2_amended_truncated_payload dataTrunc 0 ⟨1, 0, 0, none, none, -1⟩ 108
    (by rfl) (by rfl) (by decide) (by rfl) (by decide) (by decide) (by decide)
  exact ⟨h.1.trans (by rfl), h.2⟩

/-- Claim C6: a descriptor failing the outer-tag check skips with an
`unsupportedFormat` warning carrying the offending tag bytes, one failing the
payload-tag check skips with `missingPayloadChunk`; header-produced
descriptors carry no rate or payload, and a successful batch is full-length
with every entry the independent extraction of its own descriptor. -/
theorem c6_per_track_skip (data : List Nat) :
    (∀ p song, (data.drop song.offset).take 4 ≠ digiMagic →
      (extract_song ⟨data, p⟩ song).map Prod.fst =
        .ok (song, some (SkipWarning.unsupportedFormat ((data.drop song.offset).take 4)))) ∧
    (∀ p song, (data.drop song.offset).take 4 = digiMagic →
      song.offset + 26 ≤ data.length →
      (data.drop (song.offset + 32)).take 4 ≠ sbngMagic →
      (data.drop (song.offset + 32)).take 4 ≠ sdatMagic →
      (extract_song ⟨data, p⟩ song).map Prod.fst =
        .ok (song, some SkipWarning.missingPayloadChunk)) ∧
    (∀ s0 songs sH, read_music_headers s0 = .ok (songs, sH) →
      ∀ sng ∈ songs, sng.rate = none ∧ sng.payload = none) ∧
    (∀ p songs rs s1, extractLoop ⟨data, p⟩ songs = .ok (rs, s1) →
      rs.length = songs.length ∧
        ∀ j (hj : j < songs.length) (hj2 : j < rs.length),
          (extract_song ⟨data, 0⟩ (songs.get ⟨j, hj⟩)).map Prod.fst = .ok (rs.get ⟨j, hj2⟩)) := by
  refine ⟨?_, ?_, ?_, ?_⟩
  · intro p song h
    unfold extract_song
    simp only [FS.seekSet, FS.read]
    rw [if_neg h]
    rfl
  · intro p song hD hRlen h1 h2
    have l22 : ((data.drop (song.offset + 22)).take 4).length = 4 :=
      take_drop_length data _ 4 (by omega)
    unfold extract_song
    simp only [FS.seekSet, FS.read]
    rw [hD, if_pos rfl]
    simp only [unpackLE, FS.read, l22, reduceIte]
    rw [if_neg h1]
    simp only [readSDAT]
    rw [if_neg h2]
    rfl
  · intro s0 songs sH h sng hmem
    obtain ⟨d0, p0⟩ := s0
    have hall := (read_music_headers_ok_inv d0 p0 songs sH h).2 sng hmem
    exact ⟨hall.1, hall.2.1⟩
  · intro p songs rs s1 h
    have hall := extractLoop_ok data songs p rs s1 h
    exact ⟨hall.2.1, hall.2.2⟩

/-- Witness for C6: a non-`DIGI` track skips with the tag recorded, a
non-`SDAT` payload tag skips with `missingPayloadChunk`, the V2 fixture
descriptor has absent rate/payload, and the singleton batch extracts
independently. -/
theorem c6_per_track_skip_witness :
    (extract_song ⟨dataV2, 0⟩ ⟨9, 0, 0, none, none, -1⟩).map Prod.fst =
      .ok (⟨9, 0, 0, none, none, -1⟩, some (SkipWarning.unsupportedFormat [83, 79, 78, 71])) ∧
    (extract_song ⟨dataMiss, 0⟩ ⟨2, 0, 0, none, none, -1⟩).map Prod.fst =
      .ok (⟨2, 0, 0, none, none, -1⟩, some SkipWarning.missingPayloadChunk) ∧
    ((⟨7, 77, 11, none, none, -1⟩ : SongInfo).rate = none ∧
      (⟨7, 77, 11, none, none, -1⟩ : SongInfo).payload = none) ∧
    (extract_song ⟨dataV2, 0⟩
        (([⟨7, 77, 11, none, none, -1⟩] : List SongInfo).get ⟨0, by norm_num⟩)).map Prod.fst =
      .ok (([(⟨7, 77, 11, some 11025, some [1, 2, 3], -1⟩, (none : Option SkipWarning))].get
        ⟨0, by norm_num⟩)) := by
  refine ⟨?_, ?_, ?_, ?_⟩
  · exact (c6_per_track_skip dataV2).1 0 ⟨9, 0, 0, none, none, -1⟩ (by decide)
  · exact (c6_per_track_skip dataMiss).2.1 0 ⟨2, 0, 0, none, none, -1⟩
      (by decide) (by decide) (by decide) (by decide)
  · exact (c6_per_track_skip dataV2).2.2.1 ⟨dataV2, 0⟩ [⟨7, 77, 11, none, none, -1⟩]
      ⟨dataV2, 77⟩ (by rfl) ⟨7, 77, 11, none, none, -1⟩ (by simp)
  · exact ((c6_per_track_skip dataV2).2.2.2 77 [⟨7, 77, 11, none, none, -1⟩]
      [(⟨7, 77, 11, some 11025, some [1, 2, 3], -1⟩, none)] ⟨dataV2, 120⟩ (by rfl)).2
      0 (by norm_num) (by norm_num)

/-- Claim C9: the extraction pass never changes a descriptor's id, offset or
size — whether a track succeeds or is skipped, each returned entry agrees
with the corresponding header-reader descriptor on those fields. -/
theorem c9_descriptor_frame (data : List Nat) (p : Nat) (out songs : List SongInfo) (sH : FS)
    (hh : read_music_headers ⟨data, p⟩ = .ok (songs, sH))
    (hg : get_music_data ⟨data, p⟩ = .ok out) :
    List.Forall₂ (fun r sng => r.id = sng.id ∧ r.offset = sng.offset ∧ r.size = sng.size)
      out songs := by
  unfold get_music_data at hg
  rw [hh] at hg
  simp only at hg
  cases hl : extractLoop sH songs with
  | error e => rw [hl] at hg; cases hg
  | ok ys =>
    rw [hl] at hg
    obtain ⟨rs, s2⟩ := ys
    simp only at hg
    injection hg with hout
    have hdH := (read_music_headers_ok_inv data p songs sH hh).1
    obtain ⟨dH, pH⟩ := sH
    simp only at hdH
    rw [hdH] at hl
    obtain ⟨-, hlen, hget⟩ := extractLoop_ok data songs pH rs s2 hl
    rw [← hout]
    rw [List.forall₂_iff_get]
    refine ⟨by simp [hlen], ?_⟩
    intro i h1 h2
    have h1r : i < rs.length := by simp at h1; omega
    have hg2 := hget i h2 h1r
    cases hx : extract_song ⟨data, 0⟩ (songs.get ⟨i, h2⟩) with
    | error e => rw [hx] at hg2; cases hg2
    | ok z =>
      rw [hx] at hg2
      obtain ⟨⟨zr, zw⟩, zs⟩ := z
      injection hg2 with hz
      have hf := extract_song_ok_inv data 0 (songs.get ⟨i, h2⟩) zr zw zs hx
      have hmap : (rs.map Prod.fst).get ⟨i, h1⟩ = (rs.get ⟨i, h1r⟩).1 := by
        simp [List.get_eq_getElem, List.getElem_map]
      rw [hmap, ← hz]
      exact ⟨hf.2.1, hf.2.2.1, hf.2.2.2.1⟩

/-- Witness for C9: the V2 fixture's extracted track keeps id 7, offset 77
and size 11 from its descriptor. -/
theorem c9_descriptor_frame_witness :
    List.Forall₂ (fun (r sng : SongInfo) => r.id = sng.id ∧ r.offset = sng.offset ∧ r.size = sng.size)
      [⟨7, 77, 11, some 11025, some [1, 2, 3], -1⟩] [(⟨7, 77, 11, none, none, -1⟩ : SongInfo)] :=
  c9_descriptor_frame dataV2 0 [⟨7, 77, 11, some 11025, some [1, 2, 3], -1⟩]
    [⟨7, 77, 11, none, none, -1⟩] ⟨dataV2, 77⟩ (by rfl) (by rfl)

/-- Claim C10: every track returned by `get_music_data` has
`sbng_code_offset` equal to the sentinel `-1` or to `40` — no extraction
path assigns any other value. -/
theorem c10_sbng_offset_values (data : List Nat) (p : Nat) (out : List SongInfo)
    (hg : get_music_data ⟨data, p⟩ = .ok out) :
    ∀ r ∈ out, r.sbng_code_offset = -1 ∨ r.sbng_code_offset = 40 := by
  intro r hmem
  unfold get_music_data at hg
  cases hh : read_music_headers ⟨data, p⟩ with
  | error e => rw [hh] at hg; cases hg
  | ok xs =>
    rw [hh] at hg
    obtain ⟨songs, sH⟩ := xs
    simp only at hg
    cases hl : extractLoop sH songs with
    | error e => rw [hl] at hg; cases hg
    | ok ys =>
      rw [hl] at hg
      obtain ⟨rs, s2⟩ := ys
      simp only at hg
      injection hg with hout
      obtain ⟨hdH, hfields⟩ := read_music_headers_ok_inv data p songs sH hh
      obtain ⟨dH, pH⟩ := sH
      simp only at hdH
      rw [hdH] at hl
      obtain ⟨-, hlen, hget⟩ := extractLoop_ok data songs pH rs s2 hl
      rw [← hout] at hmem
      obtain ⟨pr, hpr, hpr2⟩ := List.mem_map.mp hmem
      obtain ⟨⟨i, hi⟩, hgi⟩ := List.mem_iff_get.mp hpr
      have hiS : i < songs.length := by omega
      have hg2 := hget i hiS hi
      cases hx : extract_song ⟨data, 0⟩ (songs.get ⟨i, hiS⟩) with
      | error e => rw [hx] at hg2; cases hg2
      | ok z =>
        rw [hx] at hg2
        obtain ⟨⟨zr, zw⟩, zs⟩ := z
        injection hg2 with hz
        have hf := extract_song_ok_inv data 0 (songs.get ⟨i, hiS⟩) zr zw zs hx
        have hsent := (hfields (songs.get ⟨i, hiS⟩) (List.get_mem songs i hiS)).2.2
        left
        rw [← hpr2, ← hgi, ← hz]
        rw [hf.2.2.2.2, hsent]

/-- Witness for C10: the V2 fixture's returned track carries the sentinel. -/
theorem c10_sbng_offset_values_witness :
    (⟨7, 77, 11, some 11025, some [1, 2, 3], -1⟩ : SongInfo).sbng_code_offset = -1 ∨
    (⟨7, 77, 11, some 11025, some [1, 2, 3], -1⟩ : SongInfo).sbng_code_offset = 40 :=
  c10_sbng_offset_values dataV2 0 [⟨7, 77, 11, some 11025, some [1, 2, 3], -1⟩]
    (by rfl) ⟨7, 77, 11, some 11025, some [1, 2, 3], -1⟩ (by simp)

/-- Claim C8: parsing is a deterministic function of the input bytes — the
header reader and the full extraction give the same results regardless of
where the shared cursor starts (in particular a second run right after a
first one returns identical descriptor lists and payloads). -/
theorem c8_deterministic_parse (data : List Nat) (p q : Nat) :
    read_music_headers ⟨data, p⟩ = read_music_headers ⟨data, q⟩ ∧
    get_music_data ⟨data, p⟩ = get_music_data ⟨data, q⟩ :=
  ⟨rfl, rfl⟩

/-- Claim C1 (code defect): on a track with an `SBNG` block before `SDAT`,
the source as written fails with a `NameError` (the skip-seek and tag
re-read use the undefined name `f`), while the spec-intended variant using
the same byte source extracts exactly the payload and rate of the identical
track without the `SBNG` block and records inline-code offset 40. -/
theorem c1_sbng_inline_code :
    extract_song ⟨dataSBNG, 0⟩ ⟨1, 0, 0, none, none, -1⟩ = .error .nameErrorUndefinedF ∧
    (extract_song_spec ⟨dataSBNG, 0⟩ ⟨1, 0, 0, none, none, -1⟩).map Prod.fst =
      .ok (⟨1, 0, 0, some 11025, some [1, 2, 3], 40⟩, none) ∧
    (extract_song_spec ⟨dataPlain, 0⟩ ⟨1, 0, 0, none, none, -1⟩).map Prod.fst =
      .ok (⟨1, 0, 0, some 11025, some [1, 2, 3], -1⟩, none) :=
  ⟨rfl, rfl, rfl⟩
